import Mathlib

/-!
Shallow embedding of the foundry-agent core (tools.py and agent.py):
the tool registry, the tool-call dispatcher, the run poller, the
response extractor and the metrics aggregator, together with theorems
settling the specification claims about them.

Python values are modelled by a JSON-like inductive `Value`; Python
exceptions by the inductive `PyErr` (class plus message); fallible
Python code returns `Except PyErr _`.  Python `float` durations are
modelled as rationals.  Python dicts are insertion-ordered association
lists with dict update semantics (`dictSet` / `dictGet`).
-/

namespace FoundryModel

/-- A JSON-like runtime value, modelling the Python values that flow
through tool handlers and payloads. -/
inductive Value where
  | str (s : String)
  | int (n : Int)
  | num (q : ℚ)
  | bool (b : Bool)
  | arr (xs : List Value)
  | obj (fields : List (String × Value))
  | null

/-- A Python exception: its class and its message.  `str(e)` is the
message. -/
inductive PyErr where
  | valueError (msg : String)
  | timeoutError (msg : String)
  | typeError (msg : String)
  | exn (msg : String)
deriving DecidableEq, Repr

/-- Model of Python `str(e)`: the exception's message. -/
def PyErr.message : PyErr → String
  | .valueError m => m
  | .timeoutError m => m
  | .typeError m => m
  | .exn m => m

/-- The type annotations distinguished by `ToolRegistry._infer_parameters`
(tools.py lines 161-169): `int`, `float`, `bool`, anything else. -/
inductive TypeAnn where
  | intAnn
  | floatAnn
  | boolAnn
  | otherAnn
deriving DecidableEq, Repr

/-- One formal parameter of a Python function, as seen through
`inspect.signature`: its name, its annotation (`none` models
`inspect.Parameter.empty`, i.e. no annotation), and whether it has a
default value (`hasDefault = false` models `default ==
inspect.Parameter.empty`). -/
structure PyParam where
  name : String
  ann : Option TypeAnn
  hasDefault : Bool
deriving DecidableEq, Repr

/-- A Python callable: its `__name__`, its formal parameter list, and
its behaviour on a keyword-argument dict (it may raise). -/
structure PyFunc where
  name : String
  params : List PyParam
  call : List (String × Value) → Except PyErr Value

/-- `ToolParameter` (tools.py lines 31-43). -/
structure ToolParameter where
  name : String
  type : String
  description : String
  required : Bool
  enum : Option (List String)
  default : Option Value

/-- `ToolDefinition` (tools.py lines 46-57): name, description and
ordered parameter list. -/
structure ToolDefinition where
  name : String
  description : String
  parameters : List ToolParameter

/-- Python dict update `d[k] = v`: replace in place if the key exists
(insertion order kept), else append. -/
def dictSet {α : Type} : List (String × α) → String → α → List (String × α)
  | [], k, v => [(k, v)]
  | (k', v') :: rest, k, v =>
    if k' = k then (k, v) :: rest else (k', v') :: dictSet rest k v

/-- Python dict lookup `d.get(k)`. -/
def dictGet {α : Type} : List (String × α) → String → Option α
  | [], _ => none
  | (k', v') :: rest, k => if k' = k then some v' else dictGet rest k

/-- `ToolRegistry` (tools.py lines 97-111): the `_tools` dict of
handlers and the `_schemas` dict of `ToolDefinition`s. -/
structure ToolRegistry where
  tools : List (String × PyFunc)
  schemas : List (String × ToolDefinition)

/-- A freshly constructed `ToolRegistry()`. -/
def ToolRegistry.empty : ToolRegistry := ⟨[], []⟩

/-- The type tag chosen by `_infer_parameters` for one annotation
(tools.py lines 161-169): default "string"; "integer" for `int`,
"number" for `float`, "boolean" for `bool`. -/
def inferParamType : Option TypeAnn → String
  | some .intAnn => "integer"
  | some .floatAnn => "number"
  | some .boolAnn => "boolean"
  | some .otherAnn => "string"
  | none => "string"

/-- The loop body of `_infer_parameters` (tools.py lines 157-176):
skip `self`, infer a type tag from the annotation, mark required iff
there is no default. -/
def infer_parameters_loop : List PyParam → List ToolParameter
  | [] => []
  | p :: rest =>
    if p.name = "self" then infer_parameters_loop rest
    else
      { name := p.name
        type := inferParamType p.ann
        description := "Parameter " ++ p.name
        required := !p.hasDefault
        enum := none
        default := none } :: infer_parameters_loop rest

/-- `ToolRegistry._infer_parameters` (tools.py lines 147-178). -/
def infer_parameters (func : PyFunc) : List ToolParameter :=
  infer_parameters_loop func.params

/-- `ToolRegistry.register` (tools.py lines 113-145): infer the
parameters when none are given, build the schema, and store handler
and schema under `func.__name__`.  There is no duplicate-name check in
the source: `dictSet` overwrites. -/
def register (r : ToolRegistry) (func : PyFunc) (description : String)
    (parameters : Option (List ToolParameter)) : ToolRegistry :=
  let name := func.name
  let ps := match parameters with
    | none => infer_parameters func
    | some given => given
  let schema : ToolDefinition := ⟨name, description, ps⟩
  { tools := dictSet r.tools name func
    schemas := dictSet r.schemas name schema }

/-- `ToolRegistry.get_tool` (tools.py lines 180-182). -/
def get_tool (r : ToolRegistry) (name : String) : Option PyFunc :=
  dictGet r.tools name

/-- `ToolRegistry.get_schema` (tools.py lines 184-186). -/
def get_schema (r : ToolRegistry) (name : String) : Option ToolDefinition :=
  dictGet r.schemas name

/-- `ToolRegistry.execute_tool` (tools.py lines 196-220): look up the
handler, raise `ValueError("Tool not found: ...")` if absent, else
invoke it; a handler exception is re-raised unchanged. -/
def execute_tool (r : ToolRegistry) (name : String)
    (arguments : List (String × Value)) : Except PyErr Value :=
  match get_tool r name with
  | none => .error (.valueError ("Tool not found: " ++ name))
  | some tool =>
    match tool.call arguments with
    | .ok result => .ok result
    | .error e => .error e

/-- `execute_tool_call` (tools.py lines 474-480), with the registry it
closes over made explicit. -/
def execute_tool_call (r : ToolRegistry) (tool_name : String)
    (arguments : List (String × Value)) : Except PyErr Value :=
  execute_tool r tool_name arguments

/-- `RunStatus` of the external service (the states used by agent.py,
spec section 6). -/
inductive RunStatus where
  | queued
  | in_progress
  | requires_action
  | completed
  | failed
  | cancelled
deriving DecidableEq, Repr

/-- The `tool_call.function` part of a pending tool call: the tool
name and the raw JSON-encoded arguments string. -/
structure ToolCallFunction where
  name : String
  arguments : String
deriving DecidableEq, Repr

/-- One pending tool invocation request: its correlation id and its
function part. -/
structure ToolCall where
  id : String
  function : ToolCallFunction
deriving DecidableEq, Repr

/-- `run.required_action.submit_tool_outputs`: the pending batch. -/
structure SubmitToolOutputs where
  tool_calls : List ToolCall
deriving DecidableEq, Repr

/-- `run.required_action`. -/
structure RequiredAction where
  submit_tool_outputs : SubmitToolOutputs
deriving DecidableEq, Repr

/-- A run object as read back from the service: id, status, optional
pending tool-call batch, and the `usage.total_tokens` figure read by
`FoundryAgent.run` (0 when the service reports none). -/
structure Run where
  id : String
  status : RunStatus
  required_action : Option RequiredAction
  usage_total_tokens : Nat
deriving DecidableEq, Repr

/-- One entry of the `tool_outputs` list built by
`_handle_tool_calls`; the `output` field holds the value passed to
`json.dumps` (the structured payload, before serialisation). -/
structure ToolOutput where
  tool_call_id : String
  output : Value

/-- The loop body of `_handle_tool_calls` for one tool call
(agent.py lines 520-540): `json.loads` the raw arguments, then reach
`execute_tool_call`; the first exception short-circuits, exactly as
the `try` block does.  `json_loads` models the external JSON parser. -/
def dispatch_one_attempt (r : ToolRegistry)
    (json_loads : String → Except PyErr (List (String × Value)))
    (tc : ToolCall) : Except PyErr Value := do
  let arguments ← json_loads tc.function.arguments
  execute_tool_call r tc.function.name arguments

/-- The per-call result appended to `tool_outputs`: on success the
tool's result, on any exception the structured payload
`{"error": str(e)}` under the same `tool_call_id`. -/
def handle_tool_call_one (r : ToolRegistry)
    (json_loads : String → Except PyErr (List (String × Value)))
    (tc : ToolCall) : ToolOutput :=
  match dispatch_one_attempt r json_loads tc with
  | .ok result => ⟨tc.id, result⟩
  | .error e => ⟨tc.id, .obj [("error", .str e.message)]⟩

/-- The whole `for tool_call in tool_calls` loop of
`_handle_tool_calls` (agent.py lines 518-540): one output per call, in
order; no exception escapes the loop. -/
def handle_tool_calls (r : ToolRegistry)
    (json_loads : String → Except PyErr (List (String × Value))) :
    List ToolCall → List ToolOutput
  | [] => []
  | tc :: rest =>
    handle_tool_call_one r json_loads tc :: handle_tool_calls r json_loads rest

/-- `FoundryAgent._handle_tool_calls` (agent.py lines 495-547)
including the early return when `run.required_action` is falsy:
`none` models returning without submitting anything; `some outputs`
models submitting `outputs` back to the run. -/
def handle_tool_calls_for_run (r : ToolRegistry)
    (json_loads : String → Except PyErr (List (String × Value)))
    (run : Run) : Option (List ToolOutput) :=
  match run.required_action with
  | none => none
  | some ra => some (handle_tool_calls r json_loads ra.submit_tool_outputs.tool_calls)

/-- The terminal-status test of `_poll_run_completion` (agent.py line
483): `run.status in [COMPLETED, FAILED, CANCELLED]`. -/
def isTerminal : RunStatus → Bool
  | .completed => true
  | .failed => true
  | .cancelled => true
  | _ => false

/-- The fixed poll interval of `_poll_run_completion` (agent.py line
477), in seconds. -/
def poll_interval : Nat := 1

/-- The observable effects of one poll loop, in order: status fetches
(with the run returned), dispatcher invocations, and sleeps. -/
inductive PollEvent where
  | fetch (r : Run)
  | dispatch
  | sleep

/-- Number of status fetches in a poll trace. -/
def countFetches : List PollEvent → Nat
  | [] => 0
  | .fetch _ :: rest => countFetches rest + 1
  | .dispatch :: rest => countFetches rest
  | .sleep :: rest => countFetches rest

/-- Number of dispatcher invocations in a poll trace. -/
def countDispatches : List PollEvent → Nat
  | [] => 0
  | .dispatch :: rest => countDispatches rest + 1
  | .fetch _ :: rest => countDispatches rest
  | .sleep :: rest => countDispatches rest

/-- Number of sleeps in a poll trace. -/
def countSleeps : List PollEvent → Nat
  | [] => 0
  | .sleep :: rest => countSleeps rest + 1
  | .fetch _ :: rest => countSleeps rest
  | .dispatch :: rest => countSleeps rest

/-- One iteration structure of the `while elapsed < timeout` loop of
`_poll_run_completion` (agent.py lines 480-493): `remaining` is the
number of loop iterations the guard still allows (the loop adds
`poll_interval = 1` to `elapsed` per iteration, so `remaining = timeout -
elapsed`); `i` indexes the status fetches, whose results are given by
the environment `fetchRun`.  When the guard fails the code raises
`TimeoutError(f"Run timed out after {timeout} seconds")`. -/
def poll_run_go (fetchRun : Nat → Run) (timeout : Nat) :
    Nat → Nat → List PollEvent × Except PyErr Run
  | 0, _ => ([], .error (.timeoutError s!"Run timed out after {timeout} seconds"))
  | remaining + 1, i =>
    let run := fetchRun i
    if isTerminal run.status then
      ([.fetch run], .ok run)
    else
      let pre : List PollEvent :=
        if run.status = .requires_action then [.fetch run, .dispatch, .sleep]
        else [.fetch run, .sleep]
      let rest := poll_run_go fetchRun timeout remaining (i + 1)
      (pre ++ rest.1, rest.2)

/-- `FoundryAgent._poll_run_completion` (agent.py lines 456-493):
`elapsed` starts at 0 and the guard is `elapsed < timeout`, so with
`poll_interval = 1` the loop body runs at most `timeout` times. -/
def poll_run_completion (fetchRun : Nat → Run) (timeout : Nat) :
    List PollEvent × Except PyErr Run :=
  poll_run_go fetchRun timeout timeout 0

/-- One part of a message's `content` list: either a part carrying a
`text` attribute with its string value, or any other content kind. -/
inductive MessageContent where
  | text (value : String)
  | other
deriving DecidableEq, Repr

/-- A thread message as fetched by `list_messages`: role and content
parts. -/
structure ThreadMessage where
  role : String
  content : List MessageContent
deriving DecidableEq, Repr

/-- The `for content in message.content` loop of `_extract_response`
(agent.py lines 570-573): collect, in order, the `text.value` of every
part that has a `text` attribute. -/
def collect_text_parts : List MessageContent → List String
  | [] => []
  | .text v :: rest => v :: collect_text_parts rest
  | .other :: rest => collect_text_parts rest

/-- `FoundryAgent._extract_response` (agent.py lines 549-576), applied
to the newest-first message list returned by `list_messages(order=desc,
limit=1)`: if the list is non-empty and the newest message's role is
"assistant", join its text parts with newlines; otherwise return the
sentinel "No response generated". -/
def extract_response (messages : List ThreadMessage) : String :=
  match messages with
  | [] => "No response generated"
  | message :: _ =>
    if message.role = "assistant" then
      String.intercalate "\n" (collect_text_parts message.content)
    else
      "No response generated"

/-- `AgentMetrics` (agent.py lines 57-101); durations are modelled as
rationals. -/
structure AgentMetrics where
  total_runs : Nat
  successful_runs : Nat
  failed_runs : Nat
  total_tokens_used : Nat
  average_response_time : ℚ
  tool_calls_made : Nat
deriving DecidableEq, Repr

/-- A freshly constructed `AgentMetrics()` with its dataclass
defaults. -/
def AgentMetrics.init : AgentMetrics := ⟨0, 0, 0, 0, 0, 0⟩

/-- `AgentMetrics.record_run` (agent.py lines 76-91): bump the
counters, then recompute the rolling average as
`(avg * (total_runs - 1) + duration) / total_runs` with the already
incremented `total_runs`. -/
def record_run (m : AgentMetrics) (success : Bool) (duration : ℚ)
    (tokens : Nat) (tool_calls : Nat) : AgentMetrics :=
  let total_runs := m.total_runs + 1
  { total_runs := total_runs
    successful_runs := if success then m.successful_runs + 1 else m.successful_runs
    failed_runs := if success then m.failed_runs else m.failed_runs + 1
    total_tokens_used := m.total_tokens_used + tokens
    tool_calls_made := m.tool_calls_made + tool_calls
    average_response_time :=
      (m.average_response_time * ((total_runs : ℚ) - 1) + duration) / (total_runs : ℚ) }

/-- The `success_rate` entry of `AgentMetrics.to_dict` (agent.py line
97): `successful_runs / max(total_runs, 1)`. -/
def success_rate (m : AgentMetrics) : ℚ :=
  (m.successful_runs : ℚ) / ((max m.total_runs 1 : Nat) : ℚ)

/-- The `tool_calls` figure read by `FoundryAgent.run` (agent.py line
424): the length of the pending tool-call batch, 0 when there is
none. -/
def run_tool_call_count (r : Run) : Nat :=
  match r.required_action with
  | none => 0
  | some ra => ra.submit_tool_outputs.tool_calls.length

/-- The remote environment one call of `FoundryAgent.run` sees: the
result of `create_run`, the status sequence the poller will fetch, the
configured timeout, the message list fetched by `_extract_response`
(or its transport failure), and the wall-clock duration measured for
the attempt. -/
structure RunEnv where
  create_run : Except PyErr Run
  fetchRun : Nat → Run
  timeout : Nat
  list_messages : Except PyErr (List ThreadMessage)
  duration : ℚ

/-- The `try`-block pipeline of `FoundryAgent.run` (agent.py lines
402-420): create the run, poll it to completion, extract the response;
the first exception short-circuits to the `except` branch. -/
def run_attempt (env : RunEnv) : Except PyErr (Run × String) := do
  let _ ← env.create_run
  let run ← (poll_run_completion env.fetchRun env.timeout).2
  let messages ← env.list_messages
  pure (run, extract_response messages)

/-- The result dict returned by a successful `FoundryAgent.run`
(agent.py lines 435-442), without the metrics snapshot (which is
returned alongside here). -/
structure RunResult where
  run_id : String
  status : RunStatus
  response : String
  duration_seconds : ℚ
  tokens_used : Nat

/-- `FoundryAgent.run` (agent.py lines 372-454): on success record a
successful run and return the result dict; on any exception record a
failed run with `tokens=0, tool_calls=0` and re-raise the exception
unchanged. -/
def agent_run (m : AgentMetrics) (env : RunEnv) :
    AgentMetrics × Except PyErr RunResult :=
  match run_attempt env with
  | .ok (run, response) =>
    let tokens_used := run.usage_total_tokens
    let tool_calls := run_tool_call_count run
    (record_run m true env.duration tokens_used tool_calls,
     .ok ⟨run.id, run.status, response, env.duration, tokens_used⟩)
  | .error e =>
    (record_run m false env.duration 0 0, .error e)

/-- The text projection of one content part: the `text.value` when the
part has a `text` attribute, nothing otherwise. -/
def textPart : MessageContent → Option String
  | .text v => some v
  | .other => none

/-! ### Helper lemmas about the dict model -/

theorem dictGet_dictSet_self {α : Type} (d : List (String × α)) (k : String) (v : α) :
    dictGet (dictSet d k v) k = some v := by
  induction d with
  | nil => simp [dictSet, dictGet]
  | cons hd tl ih =>
    obtain ⟨k', v'⟩ := hd
    by_cases h : k' = k
    · simp [dictSet, dictGet, h]
    · simp [dictSet, dictGet, h, ih]

theorem map_fst_dictSet {α : Type} (d : List (String × α)) (k : String) (v : α) :
    (dictSet d k v).map Prod.fst =
      if k ∈ d.map Prod.fst then d.map Prod.fst else d.map Prod.fst ++ [k] := by
  induction d with
  | nil => simp [dictSet]
  | cons hd tl ih =>
    obtain ⟨k', v'⟩ := hd
    by_cases h : k' = k
    · simp [dictSet, h]
    · by_cases hm : k ∈ tl.map Prod.fst <;>
        simp [dictSet, h, ih, hm, Ne.symm h]

theorem mem_dictSet {α : Type} {x : String × α} {d : List (String × α)}
    {k : String} {v : α} (hx : x ∈ dictSet d k v) : x = (k, v) ∨ x ∈ d := by
  induction d with
  | nil => simpa [dictSet] using hx
  | cons hd tl ih =>
    obtain ⟨k', v'⟩ := hd
    by_cases h : k' = k
    · simp only [dictSet, if_pos h, List.mem_cons] at hx
      rcases hx with h1 | h2
      · exact Or.inl h1
      · exact Or.inr (List.mem_cons_of_mem _ h2)
    · simp only [dictSet, if_neg h, List.mem_cons] at hx
      rcases hx with h1 | h2
      · exact Or.inr (h1 ▸ List.mem_cons_self _ _)
      · rcases ih h2 with h3 | h4
        · exact Or.inl h3
        · exact Or.inr (List.mem_cons_of_mem _ h4)

theorem dictGet_isSome_iff {α : Type} (d : List (String × α)) (k : String) :
    (dictGet d k).isSome ↔ k ∈ d.map Prod.fst := by
  induction d with
  | nil => simp [dictGet]
  | cons hd tl ih =>
    obtain ⟨k', v'⟩ := hd
    by_cases h : k' = k
    · simp [dictGet, h]
    · have h2 : ¬k = k' := fun hk => h hk.symm
      simp [dictGet, h, h2, ih, List.mem_cons]

/-! ### Helper lemmas about the extractor and the schema inference -/

theorem collect_text_parts_eq_filterMap (l : List MessageContent) :
    collect_text_parts l = l.filterMap textPart := by
  induction l with
  | nil => rfl
  | cons c rest ih => cases c <;> simp [collect_text_parts, textPart, ih]

theorem infer_parameters_loop_eq (ps : List PyParam) :
    infer_parameters_loop ps =
      (ps.filter fun p => p.name ≠ "self").map fun p =>
        ⟨p.name, inferParamType p.ann, "Parameter " ++ p.name, !p.hasDefault,
          none, none⟩ := by
  induction ps with
  | nil => rfl
  | cons p rest ih =>
    by_cases h : p.name = "self" <;>
      simp [infer_parameters_loop, h, ih, List.filter_cons]

/-! ### Claim theorems -/

/-- C3: for every registered tool name and argument map,
`execute_tool` returns exactly the handler's own result, unchanged;
for every absent name it signals the tool-not-found error
(`ValueError("Tool not found: <name>")` in the source, the spec's
`ToolNotFoundError`); and a handler exception is propagated as the
error result carrying the cause, never swallowed. -/
theorem C3_execute_tool_contract (r : ToolRegistry) (name : String)
    (args : List (String × Value)) :
    (∀ f, get_tool r name = some f → execute_tool r name args = f.call args) ∧
    (get_tool r name = none →
      execute_tool r name args = .error (.valueError ("Tool not found: " ++ name))) ∧
    (∀ f e, get_tool r name = some f → f.call args = .error e →
      execute_tool r name args = .error e) := by
  refine ⟨?_, ?_, ?_⟩
  · intro f h
    cases hc : f.call args <;> simp [execute_tool, h, hc]
  · intro h
    simp [execute_tool, h]
  · intro f e h hc
    simp [execute_tool, h, hc]

/-- A concrete tool returning its argument dict, used for witnesses. -/
def echoTool : PyFunc :=
  ⟨"echo_tool", [⟨"x", none, false⟩], fun args => .ok (.obj args)⟩

/-- A concrete tool whose handler always raises, used for witnesses. -/
def boomTool : PyFunc :=
  ⟨"boom_tool", [], fun _ => .error (.exn "boom")⟩

/-- A concrete registry holding `echoTool` and `boomTool`. -/
def regW : ToolRegistry :=
  register (register ToolRegistry.empty echoTool "echoes its arguments" none)
    boomTool "always raises" none

/-- Witness for C3 on a concrete registry: a registered handler's
value comes back unchanged, an unknown name yields the not-found
error, and a raising handler's exception propagates. -/
theorem C3_execute_tool_contract_witness :
    execute_tool regW "echo_tool" [("x", .int 7)] = .ok (.obj [("x", .int 7)]) ∧
    execute_tool regW "missing" [] =
      .error (.valueError ("Tool not found: " ++ "missing")) ∧
    execute_tool regW "boom_tool" [] = .error (.exn "boom") := by
  refine ⟨?_, ?_, ?_⟩
  · exact ((C3_execute_tool_contract regW "echo_tool" [("x", .int 7)]).1 echoTool rfl).trans rfl
  · exact (C3_execute_tool_contract regW "missing" []).2.1 rfl
  · exact (C3_execute_tool_contract regW "boom_tool" []).2.2 boomTool (.exn "boom") rfl rfl

/-- The three successful runs of the C6 scenario, durations 2, 4, 6. -/
def metrics3 : AgentMetrics :=
  record_run (record_run (record_run AgentMetrics.init true 2 0 0) true 4 0 0)
    true 6 0 0

/-- C6: after three successful runs with durations 2, 4, 6 the average
response time is 4 and the success rate is 1; after one further failed
run with duration 0, `total_runs = 4` and the success rate is 3/4; and
in general the mean recomputed by `record_run` equals the incremental
form `newMean = oldMean + (duration - oldMean) / newTotal`. -/
theorem C6_metrics_aggregation :
    metrics3.average_response_time = 4 ∧
    success_rate metrics3 = 1 ∧
    (record_run metrics3 false 0 0 0).total_runs = 4 ∧
    success_rate (record_run metrics3 false 0 0 0) = 3 / 4 ∧
    ∀ (m : AgentMetrics) (success : Bool) (duration : ℚ) (tokens tool_calls : Nat),
      (record_run m success duration tokens tool_calls).average_response_time =
        m.average_response_time +
          (duration - m.average_response_time) / ((m.total_runs : ℚ) + 1) := by
  refine ⟨?_, ?_, by decide, ?_, ?_⟩
  · norm_num [metrics3, record_run, AgentMetrics.init]
  · norm_num [success_rate, metrics3, record_run, AgentMetrics.init]
  · norm_num [success_rate, metrics3, record_run, AgentMetrics.init]
  intro m success duration tokens tool_calls
  have h : ((m.total_runs : ℚ) + 1) ≠ 0 := by positivity
  simp only [record_run]
  push_cast
  field_simp
  ring

/-- A concrete assistant message with two text parts and one non-text
part, used for the C7 witness. -/
def assistantMsg : ThreadMessage :=
  ⟨"assistant", [.text "hello", .other, .text "world"]⟩

/-- C7: `_extract_response` returns the sentinel "No response
generated" whenever the fetched list is empty or the newest message's
role is not "assistant"; otherwise it returns the text segments of the
newest message's content, in order, joined by newlines. -/
theorem C7_extract_response_contract (messages : List ThreadMessage) :
    ((messages = [] ∨ ∃ m rest, messages = m :: rest ∧ m.role ≠ "assistant") →
      extract_response messages = "No response generated") ∧
    (∀ m rest, messages = m :: rest → m.role = "assistant" →
      extract_response messages =
        String.intercalate "\n" (m.content.filterMap textPart)) := by
  constructor
  · rintro (rfl | ⟨m, rest, rfl, hrole⟩)
    · rfl
    · simp [extract_response, hrole]
  · rintro m rest rfl hrole
    simp [extract_response, hrole, collect_text_parts_eq_filterMap]

/-- Witness for C7: the empty fetch, a newest user message, and a
newest assistant message with two text parts. -/
theorem C7_extract_response_contract_witness :
    extract_response [] = "No response generated" ∧
    extract_response [⟨"user", [.text "hi"]⟩] = "No response generated" ∧
    extract_response [assistantMsg] = "hello\nworld" := by
  refine ⟨?_, ?_, ?_⟩
  · exact (C7_extract_response_contract []).1 (Or.inl rfl)
  · exact (C7_extract_response_contract [⟨"user", [.text "hi"]⟩]).1
      (Or.inr ⟨_, _, rfl, by decide⟩)
  · exact ((C7_extract_response_contract [assistantMsg]).2 assistantMsg [] rfl rfl).trans
      (by decide)

/-- C9: a handler registered without an explicit parameter list gets a
schema with one inferred parameter per non-`self` formal parameter, in
signature order, whose type tag comes from the annotation ("integer"
for `int`, "number" for `float`, "boolean" for `bool`, "string"
otherwise or when missing) and which is required exactly when the
formal parameter has no default. -/
theorem C9_inferred_schema (r : ToolRegistry) (f : PyFunc) (d : String) :
    get_schema (register r f d none) f.name =
      some ⟨f.name, d,
        (f.params.filter fun p => p.name ≠ "self").map fun p =>
          ⟨p.name, inferParamType p.ann, "Parameter " ++ p.name, !p.hasDefault,
            none, none⟩⟩ ∧
    inferParamType (some .intAnn) = "integer" ∧
    inferParamType (some .floatAnn) = "number" ∧
    inferParamType (some .boolAnn) = "boolean" ∧
    inferParamType (some .otherAnn) = "string" ∧
    inferParamType none = "string" := by
  refine ⟨?_, rfl, rfl, rfl, rfl, rfl⟩
  show dictGet (dictSet r.schemas f.name ⟨f.name, d, infer_parameters f⟩) f.name = _
  rw [dictGet_dictSet_self, infer_parameters, infer_parameters_loop_eq]

/-- Every per-call output is correlated to its request's invocation
id, whichever branch of the per-call `try` was taken. -/
theorem handle_tool_call_one_id (r : ToolRegistry)
    (json_loads : String → Except PyErr (List (String × Value))) (tc : ToolCall) :
    (handle_tool_call_one r json_loads tc).tool_call_id = tc.id := by
  unfold handle_tool_call_one
  cases dispatch_one_attempt r json_loads tc <;> rfl

/-- C1: for every batch of N tool-invocation requests,
`_handle_tool_calls` produces exactly N tool outputs, positionally and
hence id-wise correlated to the requests; it is a total function (the
batch-level dispatch never raises), and any individual failure (parse
error, tool not found, or handler exception) becomes the structured
`{"error": str(e)}` payload for that invocation only. -/
theorem C1_dispatch_batch (r : ToolRegistry)
    (json_loads : String → Except PyErr (List (String × Value)))
    (tool_calls : List ToolCall) :
    (handle_tool_calls r json_loads tool_calls).map ToolOutput.tool_call_id =
      tool_calls.map ToolCall.id ∧
    (∀ tc ∈ tool_calls,
      handle_tool_call_one r json_loads tc ∈
        handle_tool_calls r json_loads tool_calls) ∧
    (∀ tc e, dispatch_one_attempt r json_loads tc = .error e →
      handle_tool_call_one r json_loads tc =
        ⟨tc.id, .obj [("error", .str e.message)]⟩) := by
  refine ⟨?_, ?_, ?_⟩
  · induction tool_calls with
    | nil => rfl
    | cons tc rest ih =>
      simp [handle_tool_calls, handle_tool_call_one_id, ih]
  · intro tc htc
    induction tool_calls with
    | nil => cases htc
    | cons hd rest ih =>
      simp only [handle_tool_calls]
      rcases List.mem_cons.mp htc with rfl | hmem
      · exact List.mem_cons_self _ _
      · exact List.mem_cons_of_mem _ (ih hmem)
  · intro tc e h
    simp [handle_tool_call_one, h]

/-- A JSON-parser model for the C1 witness: `"argsA"` parses to a
one-entry dict, `"bad"` fails to parse, anything else parses empty. -/
def jlW : String → Except PyErr (List (String × Value)) := fun s =>
  if s = "argsA" then .ok [("x", .int 1)]
  else if s = "bad" then .error (.valueError "Expecting value")
  else .ok []

/-- A concrete mixed batch for the C1 witness: one success, one
unknown tool, one argument parse failure. -/
def batchW : List ToolCall :=
  [⟨"call-1", ⟨"echo_tool", "argsA"⟩⟩,
   ⟨"call-2", ⟨"missing", "argsA"⟩⟩,
   ⟨"call-3", ⟨"echo_tool", "bad"⟩⟩]

/-- Witness for C1 on a concrete three-call batch with two distinct
failure modes. -/
theorem C1_dispatch_batch_witness :
    (handle_tool_calls regW jlW batchW).map ToolOutput.tool_call_id =
      batchW.map ToolCall.id ∧
    handle_tool_call_one regW jlW ⟨"call-2", ⟨"missing", "argsA"⟩⟩ ∈
      handle_tool_calls regW jlW batchW ∧
    handle_tool_call_one regW jlW ⟨"call-3", ⟨"echo_tool", "bad"⟩⟩ =
      ⟨"call-3", .obj [("error", .str "Expecting value")]⟩ := by
  refine ⟨(C1_dispatch_batch regW jlW batchW).1, ?_, ?_⟩
  · exact (C1_dispatch_batch regW jlW batchW).2.1 ⟨"call-2", ⟨"missing", "argsA"⟩⟩
      (by decide)
  · exact ((C1_dispatch_batch regW jlW batchW).2.2 ⟨"call-3", ⟨"echo_tool", "bad"⟩⟩
      (.valueError "Expecting value") rfl).trans rfl

/-- First registration under the duplicated name, for C2. -/
def dupToolA : PyFunc := ⟨"dup_tool", [], fun _ => .ok (.int 1)⟩

/-- Second registration under the same name, for C2. -/
def dupToolB : PyFunc := ⟨"dup_tool", [], fun _ => .ok (.int 2)⟩

/-- The registry after registering `dupToolA`. -/
def dupReg1 : ToolRegistry := register ToolRegistry.empty dupToolA "first" none

/-- The registry after registering `dupToolB` under the same name. -/
def dupReg2 : ToolRegistry := register dupReg1 dupToolB "second" none

/-- C2 counterexample: `register` has no duplicate-name check — it is
a total function that cannot signal anything — and a second
registration under the same name replaces both the stored schema
(description "first" becomes "second") and the stored handler (whose
result changes from 1 to 2): the first registration is not left
intact, and the last write silently wins. -/
theorem C2_counterexample :
    Option.map ToolDefinition.description (get_schema dupReg1 "dup_tool") =
      some "first" ∧
    Option.map ToolDefinition.description (get_schema dupReg2 "dup_tool") =
      some "second" ∧
    Option.map (fun f => f.call []) (get_tool dupReg2 "dup_tool") =
      some (.ok (.int 2)) :=
  ⟨rfl, rfl, rfl⟩

/-- C2 as amended: registering a second tool under an already
registered name raises no error and silently overwrites both the
handler and the schema — the last write wins. -/
theorem C2_amended_register_overwrites (r : ToolRegistry) (f g : PyFunc)
    (d1 d2 : String) (p1 p2 : Option (List ToolParameter)) (h : g.name = f.name) :
    get_tool (register (register r f d1 p1) g d2 p2) f.name = some g ∧
    get_schema (register (register r f d1 p1) g d2 p2) f.name =
      some ⟨g.name, d2,
        match p2 with
        | none => infer_parameters g
        | some given => given⟩ := by
  constructor
  · show dictGet (dictSet (dictSet r.tools f.name f) g.name g) f.name = some g
    rw [← h, dictGet_dictSet_self]
  · show dictGet (dictSet (dictSet r.schemas f.name _) g.name _) f.name = _
    rw [← h, dictGet_dictSet_self]

/-- Witness for the amended C2, on the concrete duplicated
registrations. -/
theorem C2_amended_register_overwrites_witness :
    get_tool dupReg2 "dup_tool" = some dupToolB ∧
    get_schema dupReg2 "dup_tool" = some ⟨"dup_tool", "second", []⟩ := by
  have h := C2_amended_register_overwrites ToolRegistry.empty dupToolA dupToolB
    "first" "second" none none rfl
  exact ⟨h.1, h.2.trans rfl⟩

/-! ### Poll loop lemmas -/

theorem countFetches_append (a b : List PollEvent) :
    countFetches (a ++ b) = countFetches a + countFetches b := by
  induction a with
  | nil => simp [countFetches]
  | cons e rest ih => cases e <;> simp [countFetches, ih, Nat.add_right_comm]

theorem poll_run_go_no_terminal (fetchRun : Nat → Run) (timeout : Nat)
    (h : ∀ i, isTerminal (fetchRun i).status = false) (fuel : Nat) :
    ∀ i,
      (poll_run_go fetchRun timeout fuel i).2 =
        .error (.timeoutError s!"Run timed out after {timeout} seconds") ∧
      countFetches (poll_run_go fetchRun timeout fuel i).1 = fuel := by
  induction fuel with
  | zero => intro i; exact ⟨rfl, rfl⟩
  | succ n ih =>
    intro i
    have hi := h i
    have ihn := ih (i + 1)
    by_cases hra : (fetchRun i).status = RunStatus.requires_action
    · simp [poll_run_go, hra, isTerminal, countFetches_append, countFetches,
        ihn.1, ihn.2]
    · simp [poll_run_go, hi, hra, countFetches_append, countFetches, ihn.1, ihn.2]

/-- C4: when the fetched status never becomes terminal, the poll loop
signals the timeout error (`TimeoutError("Run timed out after
<timeout> seconds")` in the source, the spec's `RunTimeoutError`) once
the cumulative elapsed count reaches the configured timeout, after
exactly `timeout / poll_interval` status fetches. -/
theorem C4_poll_timeout (fetchRun : Nat → Run) (timeout : Nat)
    (h : ∀ i, isTerminal (fetchRun i).status = false) :
    (poll_run_completion fetchRun timeout).2 =
      .error (.timeoutError s!"Run timed out after {timeout} seconds") ∧
    countFetches (poll_run_completion fetchRun timeout).1 =
      timeout / poll_interval := by
  have hgo := poll_run_go_no_terminal fetchRun timeout h timeout 0
  exact ⟨hgo.1, hgo.2.trans (Nat.div_one timeout).symm⟩

/-- A run stuck in progress, for the C4 witness. -/
def pendingRun : Run := ⟨"run-1", .in_progress, none, 0⟩

/-- Witness for C4: a status sequence that never terminates and a
3-second budget give the timeout error after 3 fetches. -/
theorem C4_poll_timeout_witness :
    (poll_run_completion (fun _ => pendingRun) 3).2 =
      .error (.timeoutError "Run timed out after 3 seconds") ∧
    countFetches (poll_run_completion (fun _ => pendingRun) 3).1 =
      3 / poll_interval := by
  have h := C4_poll_timeout (fun _ => pendingRun) 3 (fun _ => rfl)
  exact ⟨h.1.trans (by rfl), h.2⟩

/-- C5: when the very first fetched status is already terminal, the
poll loop returns that run immediately: one status fetch, no sleep, no
dispatcher call. -/
theorem C5_poll_immediate (fetchRun : Nat → Run) (timeout : Nat)
    (h0 : 0 < timeout) (hterm : isTerminal (fetchRun 0).status = true) :
    (poll_run_completion fetchRun timeout).2 = .ok (fetchRun 0) ∧
    countFetches (poll_run_completion fetchRun timeout).1 = 1 ∧
    countSleeps (poll_run_completion fetchRun timeout).1 = 0 ∧
    countDispatches (poll_run_completion fetchRun timeout).1 = 0 := by
  obtain ⟨n, rfl⟩ : ∃ n, timeout = n + 1 := ⟨timeout - 1, by omega⟩
  simp [poll_run_completion, poll_run_go, hterm, countFetches, countSleeps,
    countDispatches]

/-- A run already completed on first fetch, for the C5 witness. -/
def doneRun : Run := ⟨"run-2", .completed, none, 42⟩

/-- Witness for C5: a completed run with the default 300-second
budget is returned after exactly one fetch. -/
theorem C5_poll_immediate_witness :
    (poll_run_completion (fun _ => doneRun) 300).2 = .ok doneRun ∧
    countFetches (poll_run_completion (fun _ => doneRun) 300).1 = 1 ∧
    countSleeps (poll_run_completion (fun _ => doneRun) 300).1 = 0 ∧
    countDispatches (poll_run_completion (fun _ => doneRun) 300).1 = 0 :=
  C5_poll_immediate (fun _ => doneRun) 300 (by decide) rfl

/-- C8: whenever the run attempt's pipeline (create, poll, extract)
fails with an exception, `FoundryAgent.run` records exactly one
metrics update — a failed run incrementing the total and failed
counters, with zero tokens and tool calls — and propagates that very
exception; it never returns a value on a failed attempt. -/
theorem C8_failed_run_metrics (m : AgentMetrics) (env : RunEnv) (e : PyErr)
    (h : run_attempt env = .error e) :
    agent_run m env = (record_run m false env.duration 0 0, .error e) ∧
    (agent_run m env).1.total_runs = m.total_runs + 1 ∧
    (agent_run m env).1.failed_runs = m.failed_runs + 1 ∧
    (agent_run m env).1.successful_runs = m.successful_runs := by
  have h1 : agent_run m env = (record_run m false env.duration 0 0, .error e) := by
    unfold agent_run
    rw [h]
  refine ⟨h1, ?_, ?_, ?_⟩ <;> rw [h1] <;> rfl

/-- A run environment whose poll times out after 2 seconds, for the
C8 witness. -/
def envW : RunEnv := ⟨.ok pendingRun, fun _ => pendingRun, 2, .ok [], 5⟩

/-- Witness for C8: a timed-out attempt records one failed run on a
fresh aggregator and propagates the timeout error. -/
theorem C8_failed_run_metrics_witness :
    agent_run AgentMetrics.init envW =
      (record_run AgentMetrics.init false 5 0 0,
        .error (.timeoutError "Run timed out after 2 seconds")) ∧
    (agent_run AgentMetrics.init envW).1.total_runs = 1 ∧
    (agent_run AgentMetrics.init envW).1.failed_runs = 1 ∧
    (agent_run AgentMetrics.init envW).1.successful_runs = 0 :=
  C8_failed_run_metrics AgentMetrics.init envW
    (.timeoutError "Run timed out after 2 seconds") rfl

/-- One recorded call to `ToolRegistry.register`. -/
structure RegisterCall where
  func : PyFunc
  description : String
  parameters : Option (List ToolParameter)

/-- Replay a sequence of `register` calls left to right. -/
def apply_registers : ToolRegistry → List RegisterCall → ToolRegistry
  | r, [] => r
  | r, c :: rest => apply_registers (register r c.func c.description c.parameters) rest

/-- The registry consistency invariant: `_tools` and `_schemas` hold
exactly the same keys in the same insertion order, and every stored
schema's name field equals its key. -/
def RegistryWF (r : ToolRegistry) : Prop :=
  r.tools.map Prod.fst = r.schemas.map Prod.fst ∧
  ∀ p ∈ r.schemas, p.2.name = p.1

theorem registryWF_empty : RegistryWF ToolRegistry.empty :=
  ⟨rfl, fun p hp => absurd hp (List.not_mem_nil p)⟩

theorem registryWF_register (r : ToolRegistry) (f : PyFunc) (d : String)
    (ps : Option (List ToolParameter)) (h : RegistryWF r) :
    RegistryWF (register r f d ps) := by
  obtain ⟨hkeys, hnames⟩ := h
  constructor
  · show (dictSet r.tools f.name f).map Prod.fst =
      (dictSet r.schemas f.name _).map Prod.fst
    rw [map_fst_dictSet, map_fst_dictSet, hkeys]
  · intro p hp
    rcases mem_dictSet hp with rfl | hmem
    · rfl
    · exact hnames p hmem

/-- C10: after any sequence of `register` calls on a fresh registry,
the set of names holding a handler equals the set of names holding a
schema, each stored schema's name field equals its key, and
`get_tool` and `get_schema` succeed or fail together for every name
(both lookups being pure reads). -/
theorem C10_registry_consistency (calls : List RegisterCall) :
    ((apply_registers ToolRegistry.empty calls).tools.map Prod.fst =
      (apply_registers ToolRegistry.empty calls).schemas.map Prod.fst) ∧
    (∀ p ∈ (apply_registers ToolRegistry.empty calls).schemas, p.2.name = p.1) ∧
    (∀ name, (get_tool (apply_registers ToolRegistry.empty calls) name).isSome ↔
      (get_schema (apply_registers ToolRegistry.empty calls) name).isSome) := by
  have hwf : RegistryWF (apply_registers ToolRegistry.empty calls) := by
    have hstep : ∀ (cs : List RegisterCall) (r : ToolRegistry),
        RegistryWF r → RegistryWF (apply_registers r cs) := by
      intro cs
      induction cs with
      | nil => intro r h; exact h
      | cons c rest ih =>
        intro r h
        exact ih _ (registryWF_register r c.func c.description c.parameters h)
    exact hstep calls ToolRegistry.empty registryWF_empty
  refine ⟨hwf.1, hwf.2, ?_⟩
  intro name
  simp only [get_tool, get_schema]
  rw [dictGet_isSome_iff, dictGet_isSome_iff, hwf.1]

/-- A concrete two-call registration sequence, for the C10 witness. -/
def callsW : List RegisterCall := [⟨dupToolA, "first", none⟩, ⟨echoTool, "echoes", none⟩]

/-- Witness for C10 on the concrete two-call sequence. -/
theorem C10_registry_consistency_witness :
    ((apply_registers ToolRegistry.empty callsW).tools.map Prod.fst =
      (apply_registers ToolRegistry.empty callsW).schemas.map Prod.fst) ∧
    (("dup_tool", (⟨"dup_tool", "first", []⟩ : ToolDefinition)).2.name = "dup_tool") ∧
    ((get_tool (apply_registers ToolRegistry.empty callsW) "echo_tool").isSome ↔
      (get_schema (apply_registers ToolRegistry.empty callsW) "echo_tool").isSome) := by
  refine ⟨(C10_registry_consistency callsW).1, ?_,
    (C10_registry_consistency callsW).2.2 "echo_tool"⟩
  exact (C10_registry_consistency callsW).2.1
    ("dup_tool", ⟨"dup_tool", "first", []⟩) (List.Mem.head _)

end FoundryModel
